import Mathlib

/-!
Shallow embedding of `src/packages/ra-core/src/form/FormDataConsumer.tsx`.

The file models the two React components of the source as pure Lean functions:

* `FormDataConsumer` (lines 45-56 of the source) resolves the current form
  snapshot from the watch subscription (`useWatch`), falling back to the
  configured default values (`getValues`) when the watched snapshot has no
  keys, and delegates to the view with `formData={formData} {...props}`.
* `FormDataConsumerView` (lines 58-104) destructures its props, optionally
  computes `scopedFormData` and a `getSource` helper when `index` is defined
  and `source` is truthy, invokes the render callback, runs the misuse
  warning, and maps an `undefined` result to `null`.

JavaScript values are modelled by the inductive type `JSValue`; JS objects are
association lists of string keys (unique keys, as produced by object
literals); the JSX spread `\x7bformData, ...props\x7d` is modelled by
`objMerge`, with later keys overriding earlier ones as in JS.  The mutable
`getSourceHasBeenCalled` flag is modelled by explicit state passing: a render
callback receives the flag and returns the updated flag together with its
result.  The lodash `get` path lookup (an external npm dependency) is modelled
by `lodashGet`, following the documented lodash semantics: the path string is
split on dots and brackets and walked segment by segment, yielding the JS
`undefined` value whenever a segment is missing, never an error.
-/

/-- A JavaScript runtime value, as far as the component observes it. -/
inductive JSValue where
  | undef
  | null
  | bool (b : Bool)
  | num (n : Int)
  | str (s : String)
  | obj (fields : List (String × JSValue))
  | arr (elems : List JSValue)

/-- `typeof v !== 'undefined'` is the negation of this test (source line 64). -/
def jsIsUndefined : JSValue → Bool
  | .undef => true
  | _ => false

/-- JS truthiness, used by `&& source` (line 64) and `ret &&` (line 76).
`NaN` is not representable in the `Int` model; every other falsy value is. -/
def jsTruthy : JSValue → Bool
  | .undef => false
  | .null => false
  | .bool b => b
  | .num n => n != 0
  | .str s => s != ""
  | .obj _ => true
  | .arr _ => true

/-- The `source` prop is declared `string` in the props interface; extract it.
Non-string values cannot occur for a well-typed caller. -/
def sourceString : JSValue → String
  | .str s => s
  | _ => ""

/-- Property read on a JS object modelled as an association list with unique
keys: the value at the key, or `undefined` when the key is absent. -/
def getProp (props : List (String × JSValue)) (k : String) : JSValue :=
  match props.find? (fun kv => kv.1 == k) with
  | some kv => kv.2
  | none => JSValue.undef

/-- `Object.keys(v).length` (source line 51): number of own enumerable keys. -/
def objKeysLength : JSValue → Nat
  | .obj fields => fields.length
  | .arr elems => elems.length
  | _ => 0

/-- JS object spread `\x7b ...a, ...b \x7d`: keys of `a` keep their position but
take the value from `b` when `b` also has the key; the remaining keys of `b`
follow.  This models the JSX `formData=\x7bformData\x7d \x7b...props\x7d` of source
line 55, where a later spread overrides an earlier attribute. -/
def objMerge (a b : List (String × JSValue)) : List (String × JSValue) :=
  a.map (fun kv =>
    match b.find? (fun kv2 => kv2.1 == kv.1) with
    | some kv2 => (kv.1, kv2.2)
    | none => kv) ++
  b.filter (fun kv2 => (a.find? (fun kv => kv.1 == kv2.1)).isNone)

/-- Splits a lodash path on `.`, treating `[` as a separator and dropping `]`,
so that `a.b` becomes `[a, b]` and `a[0].b` becomes `[a, 0, b]`, following the
documented lodash `toPath` behaviour on the paths the component uses. -/
def splitPathAux : List Char → List Char → List String
  | [], acc => [String.mk acc.reverse]
  | c :: cs, acc =>
    if c = '.' then String.mk acc.reverse :: splitPathAux cs []
    else if c = '[' then String.mk acc.reverse :: splitPathAux cs []
    else if c = ']' then splitPathAux cs acc
    else splitPathAux cs (c :: acc)

/-- Path segmentation for `lodashGet`. -/
def splitPath (s : String) : List String :=
  splitPathAux s.data []

/-- One property-access step `v[k]` of the lodash `get` walk: a field of an
object, an index of an array (when the segment is numeric), and `none`
(missing) otherwise — accessing a property of a primitive yields `undefined`
in JS, never an error. -/
def getSeg (v : JSValue) (k : String) : Option JSValue :=
  match v with
  | .obj fields => (fields.find? (fun kv => kv.1 == k)).map Prod.snd
  | .arr elems =>
    match k.toNat? with
    | some n => elems.get? n
    | none => none
  | _ => none

/-- The lodash `get` walk over a segmented path: `none` means the path is
missing from the value. -/
def lodashGetOpt (v : JSValue) : List String → Option JSValue
  | [] => some v
  | k :: ks =>
    match getSeg v k with
    | some v2 => lodashGetOpt v2 ks
    | none => none

/-- Model of lodash `get(object, path)` (imported on source line 4): the value
at `path`, or JS `undefined` when the path is missing. Total by construction:
a missing path yields `undefined`, never an error. -/
def lodashGet (v : JSValue) (path : String) : JSValue :=
  (lodashGetOpt v (splitPath path)).getD JSValue.undef

/-- Modelled from the spec: the `warning` utility
(`src/packages/ra-core/src/util/warning.ts`, imported on source line 6 but not
included under `src/`) emits a developer-facing console warning when its
condition is true, and is advisory only — it never alters control flow or the
returned value.  We model it by the number of warnings it emits. -/
def warning (condition : Bool) (_message : String) : Nat :=
  if condition then 1 else 0

/-- The developer warning text of source lines 78-102 (abridged; the original
also embeds a JSX usage example). -/
def warningMessage : String :=
  "You are using a FormDataConsumer inside an ArrayInput and you did not call the getSource function supplied by the FormDataConsumer component. This is required for your inputs to get the proper source."

/-- The `getSource` helper passed to the render callback: takes a relative
path and the current `getSourceHasBeenCalled` flag, returns the namespaced
path and the updated flag. -/
abbrev GetSourceFn := String → Bool → String × Bool

/-- The single object argument of the render callback
`children(\x7b formData, scopedFormData, getSource, ...rest \x7d)`:
`scopedFormData` and `getSource` are `none` exactly when the corresponding
keys are absent (non-scoped branch). -/
structure RenderParams where
  formData : JSValue
  scopedFormData : Option JSValue
  getSource : Option GetSourceFn
  rest : List (String × JSValue)

/-- A render callback (`children`): receives the params and the current
`getSourceHasBeenCalled` flag, returns the rendered result and the updated
flag.  A callback arising from JS code can only flip the flag by invoking the
supplied `getSource`. -/
abbrev RenderCallback := RenderParams → Bool → JSValue × Bool

/-- The `getSource` closure of source lines 66-69: sets
`getSourceHasBeenCalled`, then returns the template literal
`${source}.${scopedSource}`. -/
def mkGetSource (source : String) : GetSourceFn :=
  fun scopedSource _flag => (source ++ "." ++ scopedSource, true)

/-- Keys removed from `...rest` by the destructuring of source line 59:
`const \x7b children, form, formData, source, index, ...rest \x7d = props`. -/
def restNames : List String := ["children", "form", "formData", "source", "index"]

/-- The `...rest` of the props object after the destructuring of line 59. -/
def restOf (props : List (String × JSValue)) : List (String × JSValue) :=
  props.filter (fun kv => !(restNames.contains kv.1))

/-- The argument object built for the render callback on the non-scoped branch
(source line 72): `\x7b formData, ...rest \x7d`. -/
def plainRenderParams (props : List (String × JSValue)) : RenderParams :=
  { formData := getProp props "formData"
    scopedFormData := none
    getSource := none
    rest := restOf props }

/-- The argument object built for the render callback on the scoped branch
(source lines 65-70): `scopedFormData = get(formData, source)` and the
`getSource` closure over `source`. -/
def scopedRenderParams (props : List (String × JSValue)) : RenderParams :=
  { formData := getProp props "formData"
    scopedFormData :=
      some (lodashGet (getProp props "formData") (sourceString (getProp props "source")))
    getSource := some (mkGetSource (sourceString (getProp props "source")))
    rest := restOf props }

/-- The branch condition of source line 64:
`typeof index !== 'undefined' && source`. -/
def scopedCond (props : List (String × JSValue)) : Bool :=
  !jsIsUndefined (getProp props "index") && jsTruthy (getProp props "source")

/-- Invoking the render callback with the branch-appropriate params, starting
from `getSourceHasBeenCalled = false` (source lines 61-73); yields the raw
result `ret` and the final flag. -/
def viewRawRun (children : RenderCallback) (props : List (String × JSValue)) :
    JSValue × Bool :=
  if scopedCond props then children (scopedRenderParams props) false
  else children (plainRenderParams props) false

/-- The observable outcome of one render of the view: the returned node and
the number of developer warnings emitted. -/
structure ViewResult where
  ret : JSValue
  warningsEmitted : Nat

/-- The epilogue of the view (source lines 75-103): run the `warning` check
`typeof index !== 'undefined' && ret && !getSourceHasBeenCalled`, then return
`ret === undefined ? null : ret`. -/
def viewReturn (index : JSValue) (r : JSValue × Bool) : ViewResult :=
  { ret := if jsIsUndefined r.1 then JSValue.null else r.1
    warningsEmitted :=
      warning (!jsIsUndefined index && jsTruthy r.1 && !r.2) warningMessage }

/-- `FormDataConsumerView` (source lines 58-104), with `children` as a
separate function argument and the remaining props as a JS object. -/
def FormDataConsumerView (children : RenderCallback)
    (props : List (String × JSValue)) : ViewResult :=
  viewReturn (getProp props "index") (viewRawRun children props)

/-- `FormDataConsumer` (source lines 45-56): `formData` is the watched
snapshot, replaced by `getValues()` (the configured default values) when the
watched snapshot has no keys; the view is rendered with
`formData=\x7bformData\x7d \x7b...props\x7d` — a JS object spread in which the
caller props are spread after the `formData` attribute. -/
def FormDataConsumer (children : RenderCallback)
    (props : List (String × JSValue)) (watched defaultValues : JSValue) :
    ViewResult :=
  FormDataConsumerView children
    (objMerge
      [("formData", if objKeysLength watched == 0 then defaultValues else watched)]
      props)

/-! ## Helper lemmas -/

/-- Spreading props after a single-key attribute leaves the attribute first
when the props do not carry that key themselves. -/
theorem objMerge_single_head (k : String) (v : JSValue)
    (props : List (String × JSValue))
    (h : ∀ kv ∈ props, (kv.1 == k) = false) :
    objMerge [(k, v)] props = (k, v) :: props := by
  have h1 : props.find? (fun kv2 => kv2.1 == k) = none := by
    rw [List.find?_eq_none]
    intro x hx
    simp [h x hx]
  unfold objMerge
  simp [h1]
  intro a b hab
  have hab2 : ¬(a = k) := by simpa using h (a, b) hab
  exact fun he => hab2 he.symm

/-! ## Claim theorems -/

/-- Claim C1: whenever `index` is defined and `source` is a non-empty string,
the view runs the scoped branch, and the params object handed to the render
callback carries `scopedFormData` equal to the lodash path lookup of `source`
in `formData`; on the example of the spec, `source = "a.b"` applied to
`formData = \x7ba: \x7bb: \x7bc: 1\x7d\x7d\x7d` yields `\x7bc: 1\x7d`. -/
theorem c1_scoped_formData_is_path_lookup (props : List (String × JSValue))
    (s : String)
    (hidx : jsIsUndefined (getProp props "index") = false)
    (hsrc : getProp props "source" = JSValue.str s)
    (hne : s ≠ "") :
    (∀ children : RenderCallback,
        FormDataConsumerView children props =
          viewReturn (getProp props "index")
            (children (scopedRenderParams props) false)) ∧
    (scopedRenderParams props).scopedFormData =
      some (lodashGet (getProp props "formData") s) ∧
    lodashGet
        (JSValue.obj [("a", JSValue.obj [("b", JSValue.obj [("c", JSValue.num 1)])])])
        "a.b" =
      JSValue.obj [("c", JSValue.num 1)] := by
  have htr : jsTruthy (getProp props "source") = true := by
    rw [hsrc]
    simpa [jsTruthy] using hne
  have hcond : scopedCond props = true := by
    simp [scopedCond, hidx, htr]
  refine ⟨?_, ?_, rfl⟩
  · intro children
    simp [FormDataConsumerView, viewRawRun, hcond]
  · simp [scopedRenderParams, hsrc, sourceString]

/-- Witness for C1 at `index = 0`, `source = "a.b"`,
`formData = \x7ba: \x7bb: \x7bc: 1\x7d\x7d\x7d`. -/
theorem c1_scoped_formData_is_path_lookup_witness :
    jsIsUndefined
        (getProp
          [("index", JSValue.num 0), ("source", JSValue.str "a.b"),
            ("formData",
              JSValue.obj
                [("a", JSValue.obj [("b", JSValue.obj [("c", JSValue.num 1)])])])]
          "index") = false ∧
    getProp
        [("index", JSValue.num 0), ("source", JSValue.str "a.b"),
          ("formData",
            JSValue.obj
              [("a", JSValue.obj [("b", JSValue.obj [("c", JSValue.num 1)])])])]
        "source" = JSValue.str "a.b" ∧
    ("a.b" : String) ≠ "" ∧
    (scopedRenderParams
          [("index", JSValue.num 0), ("source", JSValue.str "a.b"),
            ("formData",
              JSValue.obj
                [("a", JSValue.obj [("b", JSValue.obj [("c", JSValue.num 1)])])])]).scopedFormData =
      some
        (lodashGet
          (getProp
            [("index", JSValue.num 0), ("source", JSValue.str "a.b"),
              ("formData",
                JSValue.obj
                  [("a", JSValue.obj [("b", JSValue.obj [("c", JSValue.num 1)])])])]
            "formData")
          "a.b") :=
  ⟨rfl, rfl, by decide,
    (c1_scoped_formData_is_path_lookup
        [("index", JSValue.num 0), ("source", JSValue.str "a.b"),
          ("formData",
            JSValue.obj
              [("a", JSValue.obj [("b", JSValue.obj [("c", JSValue.num 1)])])])]
        "a.b" rfl rfl (by decide)).2.1⟩

/-- Claim C2: the warning count of a render is 1 exactly when `index` is
defined, the raw render result is truthy, and the `getSourceHasBeenCalled`
flag is still false after the render call, and 0 otherwise (so it fires
exactly once per such render); and the returned node is determined by the raw
render result alone, unchanged by the warning. -/
theorem c2_warning_iff_scoped_nonempty_uncalled (children : RenderCallback)
    (props : List (String × JSValue)) :
    (FormDataConsumerView children props).warningsEmitted =
      (if !jsIsUndefined (getProp props "index") &&
            jsTruthy (viewRawRun children props).1 &&
            !(viewRawRun children props).2 then 1 else 0) ∧
    (FormDataConsumerView children props).ret =
      (if jsIsUndefined (viewRawRun children props).1 then JSValue.null
        else (viewRawRun children props).1) :=
  ⟨rfl, rfl⟩

/-- Claim C3: the view returns `null` when the render callback produced
`undefined`, returns the callback result unchanged otherwise, and therefore
never returns `undefined`. -/
theorem c3_never_returns_undefined (children : RenderCallback)
    (props : List (String × JSValue)) :
    (FormDataConsumerView children props).ret =
      (if jsIsUndefined (viewRawRun children props).1 then JSValue.null
        else (viewRawRun children props).1) ∧
    jsIsUndefined (FormDataConsumerView children props).ret = false := by
  refine ⟨rfl, ?_⟩
  show jsIsUndefined
      (if jsIsUndefined (viewRawRun children props).1 then JSValue.null
        else (viewRawRun children props).1) = false
  cases hr : jsIsUndefined (viewRawRun children props).1 with
  | true => simp [hr, jsIsUndefined]
  | false => simp [hr]

/-- Counterexample for C4: the view is rendered with
`formData=\x7bformData\x7d \x7b...props\x7d`, and the spread of the caller props comes
after the `formData` attribute, so a caller-supplied `formData` prop overrides
the resolved snapshot.  With an empty watched snapshot, non-empty default
values `\x7ba: 1\x7d`, and caller props carrying `formData: 7`, a probe callback
that renders its received `formData` observes `7`, not the default values. -/
theorem c4_formData_override_counterexample :
    objKeysLength (JSValue.obj []) = 0 ∧
    (FormDataConsumer (fun p flag => (p.formData, flag))
          [("formData", JSValue.num 7)]
          (JSValue.obj []) (JSValue.obj [("a", JSValue.num 1)])).ret =
      JSValue.num 7 ∧
    JSValue.num 7 ≠ JSValue.obj [("a", JSValue.num 1)] :=
  ⟨rfl, rfl, fun h => JSValue.noConfusion h⟩

/-- Claim C4 (amended): provided the caller props do not themselves carry a
`formData` key, the `formData` prop the view receives is the configured
default values when the watched snapshot has zero keys, and the watched
snapshot unchanged otherwise. -/
theorem c4_formData_fallback (children : RenderCallback)
    (props : List (String × JSValue)) (watched defaultValues : JSValue)
    (h : ∀ kv ∈ props, (kv.1 == "formData") = false) :
    FormDataConsumer children props watched defaultValues =
      FormDataConsumerView children
        (("formData",
            if objKeysLength watched == 0 then defaultValues else watched) ::
          props) ∧
    getProp
        (("formData",
            if objKeysLength watched == 0 then defaultValues else watched) ::
          props)
        "formData" =
      (if objKeysLength watched == 0 then defaultValues else watched) := by
  constructor
  · exact congrArg (FormDataConsumerView children) (objMerge_single_head _ _ props h)
  · simp [getProp, List.find?]

/-- Witness for C4 (amended) at caller props `\x7bdisabled: true\x7d`, empty
watched snapshot, and default values `\x7ba: 1\x7d`: the view receives the
default values as `formData`. -/
theorem c4_formData_fallback_witness :
    (∀ kv ∈ [(("disabled" : String), JSValue.bool true)],
        (kv.1 == "formData") = false) ∧
    FormDataConsumer (fun p flag => (p.formData, flag))
        [("disabled", JSValue.bool true)]
        (JSValue.obj []) (JSValue.obj [("a", JSValue.num 1)]) =
      FormDataConsumerView (fun p flag => (p.formData, flag))
        [("formData", JSValue.obj [("a", JSValue.num 1)]),
          ("disabled", JSValue.bool true)] :=
  ⟨by decide,
    (c4_formData_fallback (fun p flag => (p.formData, flag))
        [("disabled", JSValue.bool true)]
        (JSValue.obj []) (JSValue.obj [("a", JSValue.num 1)]) (by decide)).1⟩

/-- Claim C5: under scoped mode the render callback is handed the `getSource`
closure over `source`, and that closure maps any relative path `rel` to the
concatenation `source ++ "." ++ rel` while setting the
`getSourceHasBeenCalled` flag. -/
theorem c5_getSource_concatenates (props : List (String × JSValue))
    (s : String)
    (hsrc : getProp props "source" = JSValue.str s) :
    (scopedRenderParams props).getSource = some (mkGetSource s) ∧
    (∀ (rel : String) (flag : Bool),
        mkGetSource s rel flag = (s ++ "." ++ rel, true)) := by
  constructor
  · simp [scopedRenderParams, hsrc, sourceString]
  · intro rel flag
    rfl

/-- Witness for C5 at `source = "users.0"` and relative path `"role"`: the
helper returns the literal `"users.0.role"` and records the invocation. -/
theorem c5_getSource_concatenates_witness :
    getProp [("source", JSValue.str "users.0")] "source" =
      JSValue.str "users.0" ∧
    mkGetSource "users.0" "role" false = ("users.0.role", true) :=
  ⟨rfl,
    (c5_getSource_concatenates [("source", JSValue.str "users.0")] "users.0"
        rfl).2 "role" false⟩

/-- Claim C6: when the branch condition of line 64 fails (`index` undefined,
or `source` empty/falsy), the view runs the non-scoped branch: the render
callback receives exactly the `formData` prop and the pass-through `rest`
props, with no `scopedFormData` key and no `getSource` helper. -/
theorem c6_plain_params (props : List (String × JSValue))
    (h : scopedCond props = false) :
    (∀ children : RenderCallback,
        FormDataConsumerView children props =
          viewReturn (getProp props "index")
            (children (plainRenderParams props) false)) ∧
    (plainRenderParams props).formData = getProp props "formData" ∧
    (plainRenderParams props).scopedFormData = none ∧
    (plainRenderParams props).getSource = none ∧
    (plainRenderParams props).rest = restOf props := by
  refine ⟨?_, rfl, rfl, rfl, rfl⟩
  intro children
  simp [FormDataConsumerView, viewRawRun, h]

/-- Witness for C6 at props with `formData = \x7bx: 1\x7d`, a pass-through prop,
and no `index`. -/
theorem c6_plain_params_witness :
    scopedCond
        [("formData", JSValue.obj [("x", JSValue.num 1)]),
          ("disabled", JSValue.bool true)] = false ∧
    (plainRenderParams
          [("formData", JSValue.obj [("x", JSValue.num 1)]),
            ("disabled", JSValue.bool true)]).getSource = none :=
  ⟨rfl,
    (c6_plain_params
        [("formData", JSValue.obj [("x", JSValue.num 1)]),
          ("disabled", JSValue.bool true)] rfl).2.2.2.1⟩

/-- Claim C7: the scoped lookup is total — the scoped branch always hands the
render callback a `scopedFormData` value, namely the lodash lookup of the
`source` path in `formData`, and when the path is missing from the snapshot
that value is JS `undefined` rather than an error. -/
theorem c7_missing_path_yields_undefined (fd : JSValue) (s : String)
    (hmiss : lodashGetOpt fd (splitPath s) = none) :
    lodashGet fd s = JSValue.undef ∧
    (∀ props : List (String × JSValue),
        (scopedRenderParams props).scopedFormData =
          some
            (lodashGet (getProp props "formData")
              (sourceString (getProp props "source")))) := by
  refine ⟨?_, fun _ => rfl⟩
  unfold lodashGet
  rw [hmiss]
  rfl

/-- Witness for C7 at `formData = \x7ba: 1\x7d` and the missing path `"b.c"`. -/
theorem c7_missing_path_yields_undefined_witness :
    lodashGetOpt (JSValue.obj [("a", JSValue.num 1)]) (splitPath "b.c") =
      none ∧
    lodashGet (JSValue.obj [("a", JSValue.num 1)]) "b.c" = JSValue.undef :=
  ⟨rfl,
    (c7_missing_path_yields_undefined (JSValue.obj [("a", JSValue.num 1)])
        "b.c" rfl).1⟩

/-- Claim C8: the form snapshot is never mutated — being a pure function of
its inputs, the embedding can only read it: both branches hand the render
callback the `formData` prop itself, unchanged; `scopedFormData` is always
the lodash lookup of the same snapshot (never an independent copy); and the
wrapper forwards the watched snapshot or the default values to the view as
received. -/
theorem c8_snapshot_never_mutated (props : List (String × JSValue)) :
    (scopedRenderParams props).formData = getProp props "formData" ∧
    (plainRenderParams props).formData = getProp props "formData" ∧
    (scopedRenderParams props).scopedFormData =
      some
        (lodashGet (getProp props "formData")
          (sourceString (getProp props "source"))) ∧
    (∀ (children : RenderCallback) (watched defaultValues : JSValue),
        FormDataConsumer children props watched defaultValues =
          FormDataConsumerView children
            (objMerge
              [("formData",
                  if objKeysLength watched == 0 then defaultValues
                  else watched)]
              props)) :=
  ⟨rfl, rfl, rfl, fun _ _ _ => rfl⟩

/-- Claim C9: the destructuring of line 59 strips `form`, `formData`,
`source`, and `index` from the pass-through props: no key of the `rest`
object handed to the render callback (in either branch) is one of these
names, whatever the caller supplied. -/
theorem c9_rest_strips_reserved_props (props : List (String × JSValue)) :
    ((restOf props).all
        (fun kv =>
          !(kv.1 == "form") && !(kv.1 == "formData") && !(kv.1 == "source") &&
            !(kv.1 == "index")) = true) ∧
    (scopedRenderParams props).rest = restOf props ∧
    (plainRenderParams props).rest = restOf props := by
  refine ⟨?_, rfl, rfl⟩
  rw [List.all_eq_true]
  intro kv hkv
  have h := (List.mem_filter.mp hkv).2
  simp [restNames] at h
  simp [h]

/-- Claim C10: when `index` is defined but `source` is empty or undefined,
the non-scoped branch runs — the render callback receives no `getSource`
helper at all — yet, the warning condition testing only `index` and the
`getSourceHasBeenCalled` flag, the warning still fires whenever the callback
returns a truthy result. -/
theorem c10_warning_fires_without_helper (props : List (String × JSValue))
    (hidx : jsIsUndefined (getProp props "index") = false)
    (hsrc : jsTruthy (getProp props "source") = false) :
    (∀ children : RenderCallback,
        FormDataConsumerView children props =
          viewReturn (getProp props "index")
            (children (plainRenderParams props) false)) ∧
    (plainRenderParams props).getSource = none ∧
    (∀ ret : JSValue,
        (FormDataConsumerView (fun _ flag => (ret, flag)) props).warningsEmitted =
          (if jsTruthy ret then 1 else 0)) := by
  have hcond : scopedCond props = false := by
    simp [scopedCond, hidx, hsrc]
  refine ⟨?_, rfl, ?_⟩
  · intro children
    simp [FormDataConsumerView, viewRawRun, hcond]
  · intro ret
    simp [FormDataConsumerView, viewRawRun, hcond, viewReturn, warning, hidx]

/-- Witness for C10 at props `\x7bindex: 0\x7d` (no `source` at all) and a truthy
render result: the warning fires although no `getSource` helper exists. -/
theorem c10_warning_fires_without_helper_witness :
    jsIsUndefined (getProp [("index", JSValue.num 0)] "index") = false ∧
    jsTruthy (getProp [("index", JSValue.num 0)] "source") = false ∧
    (plainRenderParams [("index", JSValue.num 0)]).getSource = none ∧
    (FormDataConsumerView (fun _ flag => (JSValue.str "node", flag))
          [("index", JSValue.num 0)]).warningsEmitted =
      (if jsTruthy (JSValue.str "node") then 1 else 0) :=
  ⟨rfl, rfl,
    (c10_warning_fires_without_helper [("index", JSValue.num 0)] rfl rfl).2.1,
    (c10_warning_fires_without_helper [("index", JSValue.num 0)] rfl rfl).2.2
      (JSValue.str "node")⟩
